import Mathlib

/-!
Shallow embedding of src/smcpeak-addon.py, a Blender video-sequence-editor
add-on.  The add-on's functions are short sequences of calls into the host
application (the bpy module); we model the host scene state explicitly and
each host operator as a Lean function on that state, then translate the
add-on's Python functions over it.  Python exceptions are modelled with
Except, carrying the scene state at the moment of the raise.  Machine
integers do not arise: Python ints are arbitrary precision, modelled as Int.
-/

/-- A timeline strip in the host sequence editor, restricted to the fields
this add-on reads or writes.  Frame positions and durations are integers;
the normalized location coordinates are rationals standing for the Python
floats (no claim depends on float rounding). -/
structure Strip where
  type : String := "TEXT"
  frame_final_start : Int := 0
  frame_final_duration : Int := 0
  channel : Int := 1
  select : Bool := false
  lock : Bool := false
  text : String := ""
  use_shadow : Bool := false
  font_size : Int := 0
  align_x : String := "CENTER"
  loc_x : Rat := 0
  loc_y : Rat := 0
  font : Option String := none
  crop_min_x : Int := 0
  crop_max_x : Int := 0
  crop_min_y : Int := 0
  crop_max_y : Int := 0
  offset_y : Int := 0
  directory : String := ""
  filename : String := ""
  deriving Repr, DecidableEq

/-- The scene render settings the add-on touches. -/
structure RenderSettings where
  filepath : String := ""
  file_format : String := "FFMPEG"
  deriving Repr, DecidableEq

/-- One host command issued through the bpy operator interface (plus the
direct assignment of the scene current frame, which ripple delete performs
between two operator calls). -/
inductive Cmd where
  | sequencerDelete : Cmd
  | setFrameCurrent : Int → Cmd
  | selectSideOfFrame : String → Cmd
  | seqSlide : Int → Int → Cmd
  | renderRender : Bool → Cmd
  | effectStripAdd : String → Int → Int → Cmd
  | imageStripAdd : String → String → Int → Int → Cmd
  | fontOpen : String → Cmd
  deriving Repr, DecidableEq

/-- The host state visible to the add-on: the scene (strips, frame numbers,
render settings), the loaded font datablock names, plus observation
channels (files written, console log, trace of host commands issued) and
two environment flags saying whether the host render call and the render
settings restoration raise (the add-on cannot control those; modelling
them as flags lets us reason about both outcomes). -/
structure Ctx where
  strips : List Strip := []
  frame_current : Int := 1
  frame_end : Int := 250
  render : RenderSettings := {}
  fonts : List String := []
  written : List (String × String) := []
  log : List String := []
  trace : List Cmd := []
  renderFails : Bool := false
  restoreFails : Bool := false
  fontOpenLoads : Bool := true
  deriving Repr, DecidableEq

/-- A Python exception: the message together with the host state at the
moment of the raise (so theorems can talk about what was mutated before
the raise). -/
abbrev PyErr := String × Ctx

/-- Directory component of a path, following os.path.dirname on
slash-separated paths: everything before the final slash, with trailing
slashes stripped unless the result is all slashes. -/
def os_path_dirname (p : String) : String :=
  let head := ((p.toList.reverse.dropWhile (fun c => c ≠ '/'))).reverse
  if head.isEmpty ∨ head.all (fun c => c = '/') then String.mk head
  else String.mk ((head.reverse.dropWhile (fun c => c = '/')).reverse)

/-- Final component of a path, following os.path.basename: everything
after the final slash. -/
def os_path_basename (p : String) : String :=
  String.mk ((p.toList.reverse.takeWhile (fun c => c ≠ '/')).reverse)

/-- Join of two path components, following os.path.join: an absolute
second component replaces the first; otherwise a separator is inserted
unless the first component is empty or already ends with one. -/
def os_path_join (a b : String) : String :=
  if b.toList.head? = some '/' then b
  else if a = "" ∨ a.toList.getLast? = some '/' then a ++ b
  else a ++ "/" ++ b

/-- Python truthiness of a font datablock, keyed here by its name: a
present datablock is truthy (its name is never the empty string). -/
def py_truthy (s : String) : Bool := s ≠ ""

/-- Update the most recently appended strip, modelling a Python mutation
through context.active_sequence_strip or through the alias the strip-adding
helpers return: both refer to the strip the last add operator created,
which our operator models append at the end of the strip list. -/
def updateLast (f : Strip → Strip) : List Strip → List Strip
  | [] => []
  | [s] => [f s]
  | s :: rest => s :: updateLast f rest

/-- Apply updateLast to the scene strips. -/
def updateActive (f : Strip → Strip) (ctx : Ctx) : Ctx :=
  { ctx with strips := updateLast f ctx.strips }

/-- The context.selected_sequences collection: the strips whose select
flag is set, in scene order. -/
def selected_sequences (ctx : Ctx) : List Strip :=
  ctx.strips.filter (fun s => s.select)

/-- The context.selected_editable_sequences collection: the selected
strips that are not locked, in scene order. -/
def selected_editable_sequences (ctx : Ctx) : List Strip :=
  ctx.strips.filter (fun s => s.select && !s.lock)

/-- Modelled host operator bpy.ops.sequencer.delete: removes every
selected strip from the scene. -/
def ops_sequencer_delete (ctx : Ctx) : Ctx :=
  { ctx with
    strips := ctx.strips.filter (fun s => !s.select),
    trace := ctx.trace ++ [Cmd.sequencerDelete] }

/-- Modelled host operator bpy.ops.sequencer.select_side_of_frame with
side RIGHT: replaces the selection with exactly the strips whose final
start frame is at or after the current frame. -/
def ops_select_side_of_frame (side : String) (ctx : Ctx) : Ctx :=
  { ctx with
    strips := ctx.strips.map (fun s =>
      { s with select :=
          if side == "RIGHT" then decide (ctx.frame_current ≤ s.frame_final_start)
          else s.select }),
    trace := ctx.trace ++ [Cmd.selectSideOfFrame side] }

/-- Modelled host operator bpy.ops.transform.seq_slide: translates every
selected strip by dx frames horizontally and dy channels vertically. -/
def ops_seq_slide (dx dy : Int) (ctx : Ctx) : Ctx :=
  { ctx with
    strips := ctx.strips.map (fun s =>
      if s.select then
        { s with frame_final_start := s.frame_final_start + dx,
                 channel := s.channel + dy }
      else s),
    trace := ctx.trace ++ [Cmd.seqSlide dx dy] }

/-- Modelled host operator bpy.ops.sequencer.effect_strip_add: appends a
new effect strip with the requested type and frame range and makes it the
active strip.  The model records the requested geometry verbatim (its
final duration is the requested frame_end minus frame_start). -/
def ops_effect_strip_add (ty : String) (frame_start frame_end : Int) (ctx : Ctx) : Ctx :=
  { ctx with
    strips := ctx.strips ++
      [{ type := ty,
         frame_final_start := frame_start,
         frame_final_duration := frame_end - frame_start }],
    trace := ctx.trace ++ [Cmd.effectStripAdd ty frame_start frame_end] }

/-- Modelled host operator bpy.ops.sequencer.image_strip_add: appends a
new image strip showing the named file, spanning the requested frame
range, and makes it the active strip. -/
def ops_image_strip_add (dir name : String) (frame_start frame_end : Int) (ctx : Ctx) : Ctx :=
  { ctx with
    strips := ctx.strips ++
      [{ type := "IMAGE",
         frame_final_start := frame_start,
         frame_final_duration := frame_end - frame_start,
         directory := dir,
         filename := name }],
    trace := ctx.trace ++ [Cmd.imageStripAdd dir name frame_start frame_end] }

/-- Modelled host operator bpy.ops.font.open: attempts to load the font
file; whether the Calibri Bold datablock actually appears is governed by
the fontOpenLoads environment flag (the file may be absent on disk). -/
def ops_font_open (path : String) (ctx : Ctx) : Ctx :=
  let ctx1 := { ctx with trace := ctx.trace ++ [Cmd.fontOpen path] }
  if ctx1.fontOpenLoads then { ctx1 with fonts := ctx1.fonts ++ ["Calibri Bold"] }
  else ctx1

/-- Modelled host operator bpy.ops.render.render with write_still: writes
one image file at the scene render filepath in the scene image file
format, or raises when the renderFails environment flag is set.  Returns
the state together with the raised message, if any. -/
def ops_render_render (ctx : Ctx) : Ctx × Option String :=
  let ctx1 := { ctx with trace := ctx.trace ++ [Cmd.renderRender true] }
  if ctx1.renderFails then (ctx1, some "render failed")
  else ({ ctx1 with
          written := ctx1.written ++ [(ctx1.render.filepath, ctx1.render.file_format)] },
        none)

/-- Embedding of get_calibri_font: return the Calibri Bold font datablock
(keyed by name), loading it first when no datablock of that name exists;
indexing a missing name raises, as the Python collection lookup does. -/
def get_calibri_font (ctx : Ctx) : Except PyErr (String × Ctx) :=
  let font_name := "Calibri Bold"
  let ctx1 :=
    if !(ctx.fonts.contains font_name) then
      ops_font_open "C:\\WINDOWS\\Fonts\\calibrib.ttf"
        { ctx with log := ctx.log ++ ["Loading font: " ++ font_name ++ "."] }
    else ctx
  if ctx1.fonts.contains font_name then Except.ok (font_name, ctx1)
  else Except.error ("KeyError: bpy_prop_collection[key]: key \"" ++ font_name ++ "\" not found", ctx1)

/-- Embedding of add_text_strip: add a text strip starting at the current
frame and lasting for duration frames, enable its shadow, return it (the
returned alias is the last-appended strip, reachable via updateActive). -/
def add_text_strip (ctx : Ctx) (duration : Int) : Ctx :=
  let frame_num := ctx.frame_current
  let ctx1 := ops_effect_strip_add "TEXT" frame_num (frame_num + duration) ctx
  updateActive (fun s => { s with use_shadow := true }) ctx1

/-- Embedding of render_frame: render the current frame to a file named
frame-NNN.png in the same directory as the main output file, where NNN is
the frame number, and return the new file name.  The try/finally block is
modelled by applying the restoration to the state on both the success and
the failure path; a raise during the restoration is governed by the
restoreFails flag, gets logged and swallowed, and leaves the settings
as the try block set them (the first assignment raised). -/
def render_frame (ctx : Ctx) : Except PyErr (String × Ctx) :=
  let out_dir := os_path_dirname ctx.render.filepath
  let frame_num := ctx.frame_current
  let new_filepath := os_path_join out_dir ("frame-" ++ toString frame_num ++ ".png")
  let orig_filepath := ctx.render.filepath
  let orig_file_format := ctx.render.file_format
  let ctx1 := { ctx with render := { ctx.render with filepath := new_filepath } }
  let ctx2 := { ctx1 with render := { ctx1.render with file_format := "PNG" } }
  let (ctx3, renderErr) := ops_render_render ctx2
  let ctx4 :=
    if ctx3.restoreFails then
      { ctx3 with log := ctx3.log ++ ["Exn while restoring values: restore failed"] }
    else
      { ctx3 with render := { ctx3.render with
          filepath := orig_filepath, file_format := orig_file_format } }
  match renderErr with
  | some e => Except.error (e, ctx4)
  | none => Except.ok (new_filepath, ctx4)

/-- Embedding of add_parry_timer_inset: save the current frame to a file,
add a cropped piece of it as a lingering inset for 120 frames, move the
inset down by an offset computed from the slot index n, then add a text
label for the same 120 frames and style it with the Calibri Bold font. -/
def add_parry_timer_inset (ctx : Ctx) (n : Int) : Except PyErr Ctx :=
  match render_frame ctx with
  | Except.error e => Except.error e
  | Except.ok (new_filepath, ctx1) =>
    let basename := os_path_basename new_filepath
    let directory := os_path_dirname new_filepath
    let frame_num := ctx1.frame_current
    let ctx2 := ops_image_strip_add directory basename frame_num (frame_num + 120) ctx1
    let ctx3 := updateActive (fun s =>
      { s with crop_min_x := 1166, crop_max_x := 57,
               crop_min_y := 665, crop_max_y := 28 }) ctx2
    let ctx4 := updateActive (fun s => { s with offset_y := -(150 + 50 * n) }) ctx3
    let ctx5 := add_text_strip ctx4 120
    let ctx6 := updateActive (fun s =>
      { s with font_size := 20, align_x := "RIGHT",
               loc_x := 9/10, loc_y := 74/100 - 7/100 * (n : Rat) }) ctx5
    match get_calibri_font ctx6 with
    | Except.error e => Except.error e
    | Except.ok (font, ctx7) =>
      Except.ok (if py_truthy font then
          updateActive (fun s => { s with font := some font }) ctx7
        else ctx7)

/-- Embedding of add_attempt_number: add a text box showing the current
attempt number, spanning from the current frame to the scene end frame
(with no guard on that difference), styled with the Calibri Bold font. -/
def add_attempt_number (ctx : Ctx) : Except PyErr Ctx :=
  let remaining_frames := ctx.frame_end - ctx.frame_current
  let ctx1 := add_text_strip ctx remaining_frames
  let ctx2 := updateActive (fun s =>
    { s with font_size := 40, align_x := "RIGHT",
             loc_x := 98/100, loc_y := 12/100, text := "1" }) ctx1
  match get_calibri_font ctx2 with
  | Except.error e => Except.error e
  | Except.ok (font, ctx3) =>
    Except.ok (if py_truthy font then
        updateActive (fun s => { s with font := some font }) ctx3
      else ctx3)

/-- Embedding of ripple_delete: after a guard raising when nothing is
selected, delete the selected strips, move the current frame to the first
selected strip's final start, select everything at or right of the current
frame, and slide the selection left by the first selected strip's final
duration. -/
def ripple_delete (ctx : Ctx) : Except PyErr Ctx :=
  match selected_sequences ctx with
  | [] => Except.error ("No selected strips.", ctx)
  | first_sel :: _ =>
    let start := first_sel.frame_final_start
    let duration := first_sel.frame_final_duration
    let ctx1 := ops_sequencer_delete ctx
    let ctx2 := { ctx1 with frame_current := start,
                            trace := ctx1.trace ++ [Cmd.setFrameCurrent start] }
    let ctx3 := ops_select_side_of_frame "RIGHT" ctx2
    Except.ok (ops_seq_slide (-duration) 0 ctx3)

/-- Embedding of print_text_strips: the list of console lines it prints, a
header counting every selected editable strip, then the body text of each
strip of type TEXT among them, in order of final start frame (Python
sorted is a stable sort; List.mergeSort matches it). -/
def print_text_strips (ctx : Ctx) : List String :=
  let strips := selected_editable_sequences ctx
  let strips := strips.mergeSort (fun a b => a.frame_final_start ≤ b.frame_final_start)
  let count := strips.length
  ("---- " ++ toString count ++ " text strips ----") ::
    (strips.filter (fun s => s.type == "TEXT")).map (fun s => s.text)

/-- The host state carried by a computation outcome, whether it returned
normally or raised. -/
def ctxOf : Except PyErr Ctx → Ctx
  | Except.ok c => c
  | Except.error (_, c) => c

/-- The host state carried by the outcome of a computation that also
returns a value on success, whether it returned normally or raised. -/
def ctxOfVal : Except PyErr (String × Ctx) → Ctx
  | Except.ok (_, c) => c
  | Except.error (_, c) => c

/-! Concrete sample scenes used by the witness theorems. -/

/-- A selected text strip occupying frames 10 to 14. -/
def stripA : Strip :=
  { type := "TEXT", frame_final_start := 10, frame_final_duration := 5,
    select := true, text := "hello" }

/-- An unselected image strip starting later, at frame 20. -/
def stripB : Strip :=
  { type := "IMAGE", frame_final_start := 20, frame_final_duration := 7 }

/-- An unselected text strip starting earlier, at frame 2. -/
def stripC : Strip :=
  { type := "TEXT", frame_final_start := 2, frame_final_duration := 4,
    text := "early" }

/-- A sample scene with one selected strip between two unselected ones. -/
def ctxA : Ctx :=
  { strips := [stripC, stripA, stripB], frame_current := 3, frame_end := 100,
    render := { filepath := "/proj/out.mp4", file_format := "FFMPEG" },
    fonts := ["Calibri Bold"] }

/-- A sample scene with nothing selected. -/
def ctxEmptySel : Ctx :=
  { strips := [stripB, stripC], frame_current := 3, frame_end := 100 }

/-- A sample scene where both the host render call and the later
restoration of the render settings raise. -/
def ctxRF : Ctx := { ctxA with renderFails := true, restoreFails := true }

/-- The file name render_frame computes for the current frame. -/
def frameFileName (ctx : Ctx) : String :=
  os_path_join (os_path_dirname ctx.render.filepath)
    ("frame-" ++ toString ctx.frame_current ++ ".png")

/-- The image strip add_parry_timer_inset leaves in the scene for slot
index n, with all its field assignments applied. -/
def parryImageStrip (ctx : Ctx) (n : Int) : Strip :=
  { type := "IMAGE",
    frame_final_start := ctx.frame_current,
    frame_final_duration := 120,
    directory := os_path_dirname (frameFileName ctx),
    filename := os_path_basename (frameFileName ctx),
    crop_min_x := 1166, crop_max_x := 57,
    crop_min_y := 665, crop_max_y := 28,
    offset_y := -(150 + 50 * n) }

/-- The text label strip add_parry_timer_inset leaves in the scene for
slot index n, with all its field assignments applied. -/
def parryLabelStrip (ctx : Ctx) (n : Int) : Strip :=
  { type := "TEXT",
    frame_final_start := ctx.frame_current,
    frame_final_duration := 120,
    use_shadow := true,
    font_size := 20, align_x := "RIGHT",
    loc_x := 9/10, loc_y := 74/100 - 7/100 * (n : Rat),
    font := some "Calibri Bold" }

/-- The state render_frame leaves behind when the host render call
succeeds: the file is written and the settings are restored, except when
the restoration raises, in which case the settings keep the values the
try block set and the swallowed exception is logged. -/
def renderedCtx (ctx : Ctx) : Ctx :=
  if ctx.restoreFails then
    { ctx with
      render := { filepath := frameFileName ctx, file_format := "PNG" },
      trace := ctx.trace ++ [Cmd.renderRender true],
      written := ctx.written ++ [(frameFileName ctx, "PNG")],
      log := ctx.log ++ ["Exn while restoring values: restore failed"] }
  else
    { ctx with
      trace := ctx.trace ++ [Cmd.renderRender true],
      written := ctx.written ++ [(frameFileName ctx, "PNG")] }

/-- A sample scene with no font loaded and a font file that fails to
load. -/
def ctxNoFont : Ctx := { ctxA with fonts := [], fontOpenLoads := false }

/-- A sample scene whose selection mixes one text strip and one image
strip, both unlocked. -/
def ctxMixedSel : Ctx :=
  { strips := [{ stripB with select := true }, { stripC with select := true }],
    frame_current := 3, frame_end := 100 }

/-- A sample scene whose current frame is past the scene end frame. -/
def ctxLate : Ctx :=
  { strips := [], frame_current := 120, frame_end := 100,
    fonts := ["Calibri Bold"] }

/-! Claim theorems. -/

/-- Helper: updateLast rewrites exactly the last element of a list that
ends in a known element. -/
theorem updateLast_append (f : Strip → Strip) (xs : List Strip) (a : Strip) :
    updateLast f (xs ++ [a]) = xs ++ [f a] := by
  induction xs with
  | nil => rfl
  | cons x xs ih =>
    cases xs with
    | nil => rfl
    | cons y ys =>
      simp only [List.cons_append] at ih ⊢
      exact congrArg (x :: ·) ih

/-- Helper: updateLast through a two-element tail. -/
theorem updateLast_append_two (f : Strip → Strip) (xs : List Strip) (a b : Strip) :
    updateLast f (xs ++ [a, b]) = xs ++ [a, f b] := by
  have h1 : xs ++ [a, b] = (xs ++ [a]) ++ [b] := by simp
  have h2 : xs ++ [a, f b] = (xs ++ [a]) ++ [f b] := by simp
  rw [h1, h2, updateLast_append]

/-- Helper: a present font datablock is truthy. -/
theorem py_truthy_calibri : py_truthy "Calibri Bold" = true := by decide

/-- Helper: a successful host render leaves the strips alone. -/
theorem renderedCtx_strips (ctx : Ctx) : (renderedCtx ctx).strips = ctx.strips := by
  by_cases h : ctx.restoreFails <;> simp [renderedCtx, h]

/-- Helper: a successful host render leaves the current frame alone. -/
theorem renderedCtx_frame_current (ctx : Ctx) :
    (renderedCtx ctx).frame_current = ctx.frame_current := by
  by_cases h : ctx.restoreFails <;> simp [renderedCtx, h]

/-- Helper: a successful host render leaves the font collection alone. -/
theorem renderedCtx_fonts (ctx : Ctx) : (renderedCtx ctx).fonts = ctx.fonts := by
  by_cases h : ctx.restoreFails <;> simp [renderedCtx, h]

/-- Helper: a successful host render leaves the load flag alone. -/
theorem renderedCtx_fontOpenLoads (ctx : Ctx) :
    (renderedCtx ctx).fontOpenLoads = ctx.fontOpenLoads := by
  by_cases h : ctx.restoreFails <;> simp [renderedCtx, h]

/-- Helper: render_frame, on a successful host render, returns the
computed frame file name and the renderedCtx state. -/
theorem render_frame_ok_eq (ctx : Ctx) (h : ctx.renderFails = false) :
    render_frame ctx = Except.ok (frameFileName ctx, renderedCtx ctx) := by
  by_cases hr : ctx.restoreFails <;>
    simp [render_frame, ops_render_render, renderedCtx, frameFileName, h, hr]

/-- Helper: full computation of add_parry_timer_inset when the host
render call succeeds and the Calibri Bold font is present or loadable:
the call returns normally and appends exactly the image strip and the
label strip, leaving the prior strips and the current frame alone. -/
theorem add_parry_timer_inset_strips_eq (ctx : Ctx) (n : Int)
    (hrf : ctx.renderFails = false)
    (hfont : (ctx.fonts.contains "Calibri Bold" || ctx.fontOpenLoads) = true) :
    ∃ ctx2, add_parry_timer_inset ctx n = Except.ok ctx2 ∧
      ctx2.strips = ctx.strips ++ [parryImageStrip ctx n, parryLabelStrip ctx n] ∧
      ctx2.frame_current = ctx.frame_current := by
  unfold add_parry_timer_inset
  rw [render_frame_ok_eq ctx hrf]
  by_cases hc : ctx.fonts.contains "Calibri Bold" = true
  · simp only [get_calibri_font, updateActive, add_text_strip,
      ops_image_strip_add, ops_effect_strip_add, renderedCtx_strips,
      renderedCtx_frame_current, renderedCtx_fonts, hc,
      Bool.not_true, Bool.false_eq_true, if_false, if_true, ite_true, ite_false,
      py_truthy_calibri]
    refine ⟨_, rfl, ?_, ?_⟩ <;>
      simp [updateActive, updateLast_append, updateLast_append_two,
        renderedCtx_strips, renderedCtx_frame_current,
        parryImageStrip, parryLabelStrip, frameFileName, add_sub_cancel_left]
  · have hl : ctx.fontOpenLoads = true := by
      rcases Bool.or_eq_true_iff.mp hfont with h1 | h1
      · exact absurd h1 hc
      · exact h1
    simp only [get_calibri_font, ops_font_open, updateActive, add_text_strip,
      ops_image_strip_add, ops_effect_strip_add, renderedCtx_strips,
      renderedCtx_frame_current, renderedCtx_fonts, renderedCtx_fontOpenLoads,
      hc, hl, Bool.not_false, Bool.false_eq_true, if_false, if_true,
      ite_true, ite_false, py_truthy_calibri]
    have hcc : (ctx.fonts ++ ["Calibri Bold"]).contains "Calibri Bold" = true := by
      simp
    simp only [hcc, eq_self_iff_true, if_true, ite_true, py_truthy_calibri]
    refine ⟨_, rfl, ?_, ?_⟩
    · simp [updateActive, updateLast_append, updateLast_append_two,
        parryImageStrip, parryLabelStrip, frameFileName, add_sub_cancel_left]
    · simp [updateActive]

/-- C2: ripple_delete raises exactly when the list of selected strips is
empty, and it raises before issuing any host command or mutating any
scene state, so the state carried by the error is the unchanged input
context (in particular its strips, frame_current and trace are those of
the call site); with a nonempty selection it returns normally. -/
theorem ripple_delete_guard (ctx : Ctx) :
    (selected_sequences ctx = [] →
      ripple_delete ctx = Except.error ("No selected strips.", ctx)) ∧
    (selected_sequences ctx ≠ [] → ∃ ctx2, ripple_delete ctx = Except.ok ctx2) := by
  constructor
  · intro h
    unfold ripple_delete
    rw [h]
  · intro h
    cases hsel : selected_sequences ctx with
    | nil => exact absurd hsel h
    | cons a l =>
      unfold ripple_delete
      rw [hsel]
      exact ⟨_, rfl⟩

/-- Witness for C2 at a concrete scene with an empty selection: the call
raises and hands back the untouched input state. -/
theorem ripple_delete_guard_witness :
    ripple_delete ctxEmptySel =
      Except.error ("No selected strips.", ctxEmptySel) :=
  (ripple_delete_guard ctxEmptySel).1 (by rfl)

/-- C5: with a nonempty selection, ripple_delete issues exactly four host
steps, in order: delete the selected strips, set the current frame to the
first selected strip's final start, select the strips on the right side
of the current frame, and slide the selection left by the first selected
strip's final duration. -/
theorem ripple_delete_four_steps (ctx : Ctx) (first_sel : Strip) (rest : List Strip)
    (h : selected_sequences ctx = first_sel :: rest) :
    ∃ ctx2, ripple_delete ctx = Except.ok ctx2 ∧
      ctx2.trace = ctx.trace ++
        [Cmd.sequencerDelete,
         Cmd.setFrameCurrent first_sel.frame_final_start,
         Cmd.selectSideOfFrame "RIGHT",
         Cmd.seqSlide (-first_sel.frame_final_duration) 0] := by
  unfold ripple_delete
  rw [h]
  refine ⟨_, rfl, ?_⟩
  simp [ops_sequencer_delete, ops_select_side_of_frame, ops_seq_slide]

/-- Witness for C5 at a concrete scene. -/
theorem ripple_delete_four_steps_witness :
    ∃ ctx2, ripple_delete ctxA = Except.ok ctx2 ∧
      ctx2.trace = ctxA.trace ++
        [Cmd.sequencerDelete,
         Cmd.setFrameCurrent stripA.frame_final_start,
         Cmd.selectSideOfFrame "RIGHT",
         Cmd.seqSlide (-stripA.frame_final_duration) 0] :=
  ripple_delete_four_steps ctxA stripA [] (by rfl)

/-- C1: with a nonempty selection, ripple_delete removes the selected
strips and slides every remaining strip whose final start is at or after
the reference start left by the slide amount, closing the gap; the
reference start is the frame_final_start and the slide amount the
frame_final_duration of the first selected strip (in particular of a
selected strip), and the current frame ends up at the reference start.
In consequence every strip whose start lies strictly after the deleted
strips' start is moved left by the deleted strips' duration. -/
theorem ripple_delete_closes_gap (ctx : Ctx) (first_sel : Strip) (rest : List Strip)
    (h : selected_sequences ctx = first_sel :: rest) :
    ∃ ctx2, ripple_delete ctx = Except.ok ctx2 ∧
      first_sel.select = true ∧
      ctx2.frame_current = first_sel.frame_final_start ∧
      ctx2.strips = (ctx.strips.filter (fun s => !s.select)).map (fun s =>
        if first_sel.frame_final_start ≤ s.frame_final_start then
          { s with frame_final_start :=
                     s.frame_final_start - first_sel.frame_final_duration,
                   select := true }
        else { s with select := false }) := by
  have hmem : first_sel ∈ selected_sequences ctx := by
    rw [h]; exact List.mem_cons_self first_sel rest
  have hsel : first_sel.select = true :=
    (List.mem_filter.mp hmem).2
  unfold ripple_delete
  rw [h]
  refine ⟨_, rfl, hsel, ?_, ?_⟩
  · simp [ops_sequencer_delete, ops_select_side_of_frame, ops_seq_slide]
  · simp only [ops_sequencer_delete, ops_select_side_of_frame, ops_seq_slide,
      List.map_map]
    refine List.map_congr_left ?_
    intro s _
    by_cases hle : first_sel.frame_final_start ≤ s.frame_final_start
    · cases s
      simp [hle, Int.sub_eq_add_neg]
    · cases s
      simp [hle]

/-- Witness for C1 at a concrete scene: deleting the selected strip at
frames 10 to 14 slides the strip at frame 20 to frame 15 and leaves the
strip at frame 2 in place. -/
theorem ripple_delete_closes_gap_witness :
    ∃ ctx2, ripple_delete ctxA = Except.ok ctx2 ∧
      stripA.select = true ∧
      ctx2.frame_current = stripA.frame_final_start ∧
      ctx2.strips = (ctxA.strips.filter (fun s => !s.select)).map (fun s =>
        if stripA.frame_final_start ≤ s.frame_final_start then
          { s with frame_final_start :=
                     s.frame_final_start - stripA.frame_final_duration,
                   select := true }
        else { s with select := false }) :=
  ripple_delete_closes_gap ctxA stripA [] (by rfl)

/-- C3: when the host render call succeeds, render_frame returns the path
obtained by joining the directory component of the scene render filepath
with the name frame-N.png, where N is the current frame number, and the
call writes exactly one file: a PNG at that very path. -/
theorem render_frame_writes_png (ctx : Ctx) (h : ctx.renderFails = false) :
    ∃ ctx2, render_frame ctx =
      Except.ok (os_path_join (os_path_dirname ctx.render.filepath)
        ("frame-" ++ toString ctx.frame_current ++ ".png"), ctx2) ∧
      ctx2.written = ctx.written ++
        [(os_path_join (os_path_dirname ctx.render.filepath)
            ("frame-" ++ toString ctx.frame_current ++ ".png"), "PNG")] := by
  unfold render_frame ops_render_render
  by_cases hr : ctx.restoreFails <;> simp [h, hr]

/-- Witness for C3 at a concrete scene: the frame 3 render of a project
whose output path is /proj/out.mp4 lands in /proj/frame-3.png. -/
theorem render_frame_writes_png_witness :
    (∃ ctx2, render_frame ctxA =
      Except.ok (os_path_join (os_path_dirname ctxA.render.filepath)
        ("frame-" ++ toString ctxA.frame_current ++ ".png"), ctx2) ∧
      ctx2.written = ctxA.written ++
        [(os_path_join (os_path_dirname ctxA.render.filepath)
            ("frame-" ++ toString ctxA.frame_current ++ ".png"), "PNG")]) ∧
    os_path_join (os_path_dirname ctxA.render.filepath)
        ("frame-" ++ toString ctxA.frame_current ++ ".png") = "/proj/frame-3.png" :=
  ⟨render_frame_writes_png ctxA rfl, by rfl⟩

/-- C4: whenever the restoration itself does not raise, the render
settings (filepath and image file format) are restored to their pre-call
values on every exit path, success or raise; and the restoration is
guarded: when it raises, the exception is logged and swallowed, so the
outcome is still governed by the render call alone, with a failing render
propagating the original render error and a successful render returning
normally. -/
theorem render_frame_restores (ctx : Ctx) :
    (ctx.restoreFails = false →
      (ctxOfVal (render_frame ctx)).render.filepath = ctx.render.filepath ∧
      (ctxOfVal (render_frame ctx)).render.file_format = ctx.render.file_format) ∧
    (ctx.renderFails = false → ∃ p ctx2, render_frame ctx = Except.ok (p, ctx2)) ∧
    (ctx.renderFails = true →
      ∃ ctx2, render_frame ctx = Except.error ("render failed", ctx2) ∧
        (ctx2.restoreFails = true →
          ctx2.log = ctx.log ++ ["Exn while restoring values: restore failed"])) := by
  refine ⟨?_, ?_, ?_⟩
  · intro hr
    by_cases hf : ctx.renderFails <;>
      simp [render_frame, ops_render_render, ctxOfVal, hr, hf]
  · intro hf
    by_cases hr : ctx.restoreFails <;>
      simp [render_frame, ops_render_render, hf, hr]
  · intro hf
    by_cases hr : ctx.restoreFails <;>
      simp [render_frame, ops_render_render, hf, hr]

/-- Witness for C4 at a concrete scene where the render call and the
restoration both raise: the original render error still propagates and
the swallowed restore exception shows up in the log. -/
theorem render_frame_restores_witness :
    ∃ ctx2, render_frame ctxRF = Except.error ("render failed", ctx2) ∧
      (ctx2.restoreFails = true →
        ctx2.log = ctxRF.log ++ ["Exn while restoring values: restore failed"]) :=
  (render_frame_restores ctxRF).2.2 rfl

/-- C6: for every slot index n, add_parry_timer_inset (when the host
render call succeeds and the Calibri Bold font is present or loadable)
creates exactly one image strip and one text label strip and nothing
else, both starting at the scene current frame, both spanning the same
fixed duration of 120 frames, independent of n and of the rest of the
scene state. -/
theorem add_parry_timer_inset_two_strips (ctx : Ctx) (n : Int)
    (hrf : ctx.renderFails = false)
    (hfont : (ctx.fonts.contains "Calibri Bold" || ctx.fontOpenLoads) = true) :
    ∃ ctx2 img label, add_parry_timer_inset ctx n = Except.ok ctx2 ∧
      ctx2.strips = ctx.strips ++ [img, label] ∧
      img.type = "IMAGE" ∧ label.type = "TEXT" ∧
      img.frame_final_start = ctx.frame_current ∧
      label.frame_final_start = ctx.frame_current ∧
      img.frame_final_duration = 120 ∧
      label.frame_final_duration = 120 := by
  obtain ⟨ctx2, hok, hstrips, _⟩ := add_parry_timer_inset_strips_eq ctx n hrf hfont
  exact ⟨ctx2, parryImageStrip ctx n, parryLabelStrip ctx n, hok, hstrips,
    rfl, rfl, rfl, rfl, rfl, rfl⟩

/-- Witness for C6 at a concrete scene and slot index 0. -/
theorem add_parry_timer_inset_two_strips_witness :
    ∃ ctx2 img label, add_parry_timer_inset ctxA 0 = Except.ok ctx2 ∧
      ctx2.strips = ctxA.strips ++ [img, label] ∧
      img.type = "IMAGE" ∧ label.type = "TEXT" ∧
      img.frame_final_start = ctxA.frame_current ∧
      label.frame_final_start = ctxA.frame_current ∧
      img.frame_final_duration = 120 ∧
      label.frame_final_duration = 120 :=
  add_parry_timer_inset_two_strips ctxA 0 rfl (by decide)

/-- C7: for every slot index n, the image strip add_parry_timer_inset
creates carries vertical transform offset exactly -(150 + 50 * n),
computed by exact integer arithmetic from the index, and the index
affects the image strip in no other way: the image strips created for
any two indices agree once the offset of one is overwritten with the
offset of the other. -/
theorem add_parry_timer_inset_offset (ctx : Ctx) (n : Int)
    (hrf : ctx.renderFails = false)
    (hfont : (ctx.fonts.contains "Calibri Bold" || ctx.fontOpenLoads) = true) :
    ∃ ctx2, add_parry_timer_inset ctx n = Except.ok ctx2 ∧
      ctx2.strips = ctx.strips ++ [parryImageStrip ctx n, parryLabelStrip ctx n] ∧
      (parryImageStrip ctx n).offset_y = -(150 + 50 * n) ∧
      (∀ m : Int, { parryImageStrip ctx m with
          offset_y := (parryImageStrip ctx n).offset_y } = parryImageStrip ctx n) := by
  obtain ⟨ctx2, hok, hstrips, _⟩ := add_parry_timer_inset_strips_eq ctx n hrf hfont
  exact ⟨ctx2, hok, hstrips, rfl, fun m => rfl⟩

/-- Witness for C7 at a concrete scene for both registered slot indices,
0 and 1 (offsets -150 and -200). -/
theorem add_parry_timer_inset_offset_witness :
    (∃ ctx2, add_parry_timer_inset ctxA 0 = Except.ok ctx2 ∧
      ctx2.strips = ctxA.strips ++ [parryImageStrip ctxA 0, parryLabelStrip ctxA 0] ∧
      (parryImageStrip ctxA 0).offset_y = -(150 + 50 * 0) ∧
      (∀ m : Int, { parryImageStrip ctxA m with
          offset_y := (parryImageStrip ctxA 0).offset_y } = parryImageStrip ctxA 0)) ∧
    (∃ ctx2, add_parry_timer_inset ctxA 1 = Except.ok ctx2 ∧
      ctx2.strips = ctxA.strips ++ [parryImageStrip ctxA 1, parryLabelStrip ctxA 1] ∧
      (parryImageStrip ctxA 1).offset_y = -(150 + 50 * 1) ∧
      (∀ m : Int, { parryImageStrip ctxA m with
          offset_y := (parryImageStrip ctxA 1).offset_y } = parryImageStrip ctxA 1)) ∧
    (parryImageStrip ctxA 0).offset_y = -150 ∧
    (parryImageStrip ctxA 1).offset_y = -200 :=
  ⟨add_parry_timer_inset_offset ctxA 0 rfl (by decide),
   add_parry_timer_inset_offset ctxA 1 rfl (by decide),
   by decide, by decide⟩

/-- C8: get_calibri_font either returns the font datablock named Calibri
Bold, then present in the font collection and truthy, so the callers'
if font: guards never take the false branch on a normal return, or it
raises; and it raises exactly when, even after the conditional load
attempt, no datablock of that name is present. -/
theorem get_calibri_font_never_falsy (ctx : Ctx) :
    (∀ f ctx2, get_calibri_font ctx = Except.ok (f, ctx2) →
      f = "Calibri Bold" ∧ py_truthy f = true ∧
      ctx2.fonts.contains "Calibri Bold" = true) ∧
    ((∃ e, get_calibri_font ctx = Except.error e) ↔
      (ctx.fonts.contains "Calibri Bold" = false ∧ ctx.fontOpenLoads = false)) := by
  by_cases hc : ctx.fonts.contains "Calibri Bold" = true <;>
    by_cases hl : ctx.fontOpenLoads = true <;>
    constructor <;>
    simp_all [get_calibri_font, ops_font_open, py_truthy]

/-- Witness for C8 at a concrete scene with the font already loaded: the
normal return hands back the truthy Calibri Bold datablock. -/
theorem get_calibri_font_never_falsy_witness :
    "Calibri Bold" = "Calibri Bold" ∧ py_truthy "Calibri Bold" = true ∧
      ctxA.fonts.contains "Calibri Bold" = true :=
  (get_calibri_font_never_falsy ctxA).1 "Calibri Bold" ctxA (by rfl)

/-- C9: print_text_strips prints a header whose count is the number of
all selected editable strips, including those not of type TEXT, followed
by the body text of exactly the TEXT strips among them, in increasing
order of final start frame; hence for a selection containing a non-text
strip the reported count strictly exceeds the number of texts printed. -/
theorem print_text_strips_header_count (ctx : Ctx) :
    print_text_strips ctx =
      ("---- " ++ toString (selected_editable_sequences ctx).length ++ " text strips ----") ::
        (((selected_editable_sequences ctx).mergeSort
            (fun a b => a.frame_final_start ≤ b.frame_final_start)).filter
          (fun s => s.type == "TEXT")).map (fun s => s.text) ∧
    (((selected_editable_sequences ctx).mergeSort
        (fun a b => a.frame_final_start ≤ b.frame_final_start)).filter
      (fun s => s.type == "TEXT")).Pairwise
        (fun a b => a.frame_final_start ≤ b.frame_final_start) ∧
    ((∃ s ∈ selected_editable_sequences ctx, ¬ s.type = "TEXT") →
      (print_text_strips ctx).tail.length <
        (selected_editable_sequences ctx).length) := by
  refine ⟨?_, ?_, ?_⟩
  · simp [print_text_strips]
  · have hs := @List.sorted_mergeSort Strip
      (fun a b : Strip => decide (a.frame_final_start ≤ b.frame_final_start))
      (fun a b c hab hbc => by
        simp only [decide_eq_true_eq] at hab hbc ⊢; omega)
      (fun a b => by
        simp only [Bool.or_eq_true, decide_eq_true_eq]; omega)
      (selected_editable_sequences ctx)
    have hp : ((selected_editable_sequences ctx).mergeSort
        (fun a b => a.frame_final_start ≤ b.frame_final_start)).Pairwise
          (fun a b => a.frame_final_start ≤ b.frame_final_start) :=
      hs.imp (fun h => by simpa using h)
    exact List.Pairwise.sublist (List.filter_sublist _) hp
  · rintro ⟨s, hmem, hnt⟩
    have ht : (print_text_strips ctx).tail.length =
        (((selected_editable_sequences ctx).mergeSort
            (fun a b => a.frame_final_start ≤ b.frame_final_start)).filter
          (fun s => s.type == "TEXT")).length := by
      simp [print_text_strips]
    rw [ht]
    have hlen : ((selected_editable_sequences ctx).mergeSort
        (fun a b => a.frame_final_start ≤ b.frame_final_start)).length =
        (selected_editable_sequences ctx).length := List.length_mergeSort _
    rw [← hlen]
    exact List.length_filter_lt_length_iff_exists.mpr
      ⟨s, List.mem_mergeSort.mpr hmem, by simp [hnt]⟩

/-- Witness for C9 at a concrete scene whose selection holds one image
strip and one text strip. -/
theorem print_text_strips_header_count_witness :
    (∃ s ∈ selected_editable_sequences ctxMixedSel, ¬ s.type = "TEXT") ∧
    (print_text_strips ctxMixedSel).tail.length <
      (selected_editable_sequences ctxMixedSel).length :=
  have hex : ∃ s ∈ selected_editable_sequences ctxMixedSel, ¬ s.type = "TEXT" :=
    ⟨{ stripB with select := true }, by decide, by decide⟩
  ⟨hex, (print_text_strips_header_count ctxMixedSel).2.2 hex⟩

/-- C10: add_attempt_number computes the label duration as the scene end
frame minus the current frame with no guard: whenever the current frame
is at or past the end frame, the effect-strip command it issues requests
a text strip whose end bound, exactly frame_current plus the unclamped
difference, is not after its start bound. -/
theorem add_attempt_number_no_clamp (ctx : Ctx)
    (h : ctx.frame_end ≤ ctx.frame_current) :
    Cmd.effectStripAdd "TEXT" ctx.frame_current
        (ctx.frame_current + (ctx.frame_end - ctx.frame_current)) ∈
      (ctxOf (add_attempt_number ctx)).trace ∧
    ctx.frame_current + (ctx.frame_end - ctx.frame_current) ≤ ctx.frame_current := by
  constructor
  · by_cases hc : "Calibri Bold" ∈ ctx.fonts <;>
      by_cases hl : ctx.fontOpenLoads = true <;>
      simp [add_attempt_number, add_text_strip, ops_effect_strip_add,
        updateActive, get_calibri_font, ops_font_open, ctxOf, py_truthy,
        hc, hl]
  · omega

/-- Witness for C10 at a concrete scene whose current frame 120 is past
the scene end frame 100. -/
theorem add_attempt_number_no_clamp_witness :
    Cmd.effectStripAdd "TEXT" ctxLate.frame_current
        (ctxLate.frame_current + (ctxLate.frame_end - ctxLate.frame_current)) ∈
      (ctxOf (add_attempt_number ctxLate)).trace ∧
    ctxLate.frame_current + (ctxLate.frame_end - ctxLate.frame_current) ≤
      ctxLate.frame_current :=
  add_attempt_number_no_clamp ctxLate (by decide)
